import Mathlib

/-!
Verification of the mask-stack / node-graph synchronization logic of
`core/layer_masks.py` (a layer-based texturing add-on).

The Python module is shallowly embedded: the host state touched by the code
(active object / active material, its node tree's nodes and links, the global
node-group table, the scene-level mask collection and the two selection
properties) is a `State` record; every function of the module becomes a Lean
function on `State`, returning `Except PyErr State` when the Python code can
raise.  Python `int(...)` applied to a string is modelled by `pyInt`
(PEP 515: optional sign, digits with single grouping underscores between
digits); `str(...)` of an integer is `toString`.  Blender collection `.get`
returns the first element with the given name or `None`; creating a link to a
single-input socket replaces any link already feeding that socket.

The two helpers imported from modules that are not part of the sources
(`material_layers.get_material_layer_node`, `blender_addon_utils.append_node_group`)
are modelled from the spec and marked as such in their doc comments.
-/

namespace LayerMasks

/-- Errors a modelled Python function can raise.  `noFreshDraw` is not a Python
error: it models exhausting the explicit list of random draws that stands in
for the rejection-sampling `while` loop of `add_mask_slot`. -/
inductive PyErr where
  | valueError
  | attributeError
  | indexError
  | typeError
  | noFreshDraw
deriving Repr, DecidableEq

/-! ### Python `int(...)` on strings (PEP 515) -/

/-- Tail of a Python integer literal string: after one digit has been read,
the rest must be digits, with single underscores allowed only between digits. -/
def pyDigitsTail : List Char → Bool
  | [] => true
  | '_' :: [] => false
  | '_' :: c :: rest => c.isDigit && pyDigitsTail rest
  | c :: rest => c.isDigit && pyDigitsTail rest

/-- Numeric value of a digit/underscore string, ignoring the underscores. -/
def pyDigitsVal (l : List Char) : Nat :=
  l.foldl (fun n c => if c == '_' then n else n * 10 + (c.toNat - 48)) 0

/-- Python `int(s)` for a string: `some` value, or `none` for `ValueError`.
Accepts an optional sign followed by digits with single grouping underscores
between digits; everything else (in particular a formatted node name such as
`"Material_0_0"`) raises. -/
def pyInt (s : String) : Option Int :=
  match s.data with
  | [] => none
  | '-' :: c :: rest =>
    if c.isDigit && pyDigitsTail rest then some (-(pyDigitsVal (c :: rest) : Int)) else none
  | '+' :: c :: rest =>
    if c.isDigit && pyDigitsTail rest then some ((pyDigitsVal (c :: rest) : Int)) else none
  | c :: rest =>
    if c.isDigit && pyDigitsTail rest then some ((pyDigitsVal (c :: rest) : Int)) else none

/-! ### Host data model -/

/-- One entry of the scene's `matlayer_masks` collection: a `MATLAYER_masks`
property group, looked up by its `name` key. -/
structure MaskSlot where
  name : String
  hidden : Bool
deriving Repr, DecidableEq

/-- A link of the active material's node tree: output socket `fromOut` of node
`fromNode` feeds input socket `toIn` of node `toNode`. -/
structure Link where
  fromNode : String
  fromOut : Nat
  toNode : String
  toIn : Nat
deriving Repr, DecidableEq

/-- A node of a node tree.  `tree` is the `node_tree` pointer of a group node:
the index of its backing group in the global node-group table (`none` when
unset).  Input sockets are listed in order by socket name; only the number of
output sockets matters to the embedded code. -/
structure GNode where
  name : String
  tree : Option Nat
  inputs : List String
  numOutputs : Nat
  label : String
  location : Int × Int
  width : Int
deriving Repr, DecidableEq

/-- A node group of `bpy.data.node_groups`: a named node tree with its own
child nodes. -/
structure NodeGroup where
  name : String
  nodes : List GNode
deriving Repr, DecidableEq

/-- The active material: its name, and its node tree's nodes and links. -/
structure Material where
  name : String
  nodes : List GNode
  links : List Link
deriving Repr, DecidableEq

/-- The host state read and written by `layer_masks.py`.
`activeObject = none` models no active object; `some none` an active object
without an active material.  `layerNodeNames` is the spec-modelled role
assignment used by `material_layers.get_material_layer_node`: the name of the
LAYER-role node of each layer index. -/
structure State where
  activeObject : Option (Option Material)
  masks : List MaskSlot
  selected_index : Int
  stack_layer_index : Int
  selected_layer_index : Int
  nodeGroups : List NodeGroup
  layerNodeNames : List (Int × String)
deriving Repr, DecidableEq

/-- Blender collection `.get(name)`: the first node with the given name. -/
def nodesGet (nodes : List GNode) (nm : String) : Option GNode :=
  nodes.find? (fun n => n.name == nm)

/-! ### NodeNaming and GraphNodeAccessor -/

/-- Embeds `format_mask_name`: `"{0}_{1}_{2}".format(material, str(layer), str(mask))`. -/
def format_mask_name (active_material_name : String) (layer_index mask_index : Int) : String :=
  active_material_name ++ "_" ++ toString layer_index ++ "_" ++ toString mask_index

/-- Embeds `get_mask_node(node_name, layer_index, mask_index, get_changed)`:
returns `None` without an active object or material; role `MASK` looks the
formatted name (with a trailing `~` when `get_changed`) up in the active
material's node tree; roles `MASK_MIX` and `PROJECTION` both look up the child
node named `MASK_MIX` inside the mask's backing node group. -/
def get_mask_node (s : State) (node_name : String) (layer_index mask_index : Int)
    (get_changed : Bool) : Option GNode :=
  match s.activeObject with
  | none => none
  | some none => none
  | some (some active_material) =>
    match node_name with
    | "MASK" =>
      let base := format_mask_name active_material.name layer_index mask_index
      let mask_node_name := if get_changed then base ++ "~" else base
      nodesGet active_material.nodes mask_node_name
    | "MASK_MIX" =>
      let mask_group_node_name := format_mask_name active_material.name layer_index mask_index
      match s.nodeGroups.find? (fun t => t.name == mask_group_node_name) with
      | some node_tree => nodesGet node_tree.nodes "MASK_MIX"
      | none => none
    | "PROJECTION" =>
      let mask_group_node_name := format_mask_name active_material.name layer_index mask_index
      match s.nodeGroups.find? (fun t => t.name == mask_group_node_name) with
      | some node_tree => nodesGet node_tree.nodes "MASK_MIX"
      | none => none
    | _ => none

/-! ### StackMutator: `add_mask_slot` -/

/-- Blender collection `.find(name)`: index of the first element with the
given name, `-1` when absent. -/
def findCollection (masks : List MaskSlot) (nm : String) : Int :=
  match masks.findIdx? (fun m => m.name == nm) with
  | some i => (i : Int)
  | none => -1

/-- The rejection-sampling loop of `add_mask_slot`: draw
`random.randrange(0, 999999)`, resample while `masks.find(id) != -1`.  The
random draws are passed in explicitly; `none` means the supplied randomness
was exhausted while colliding. -/
def pickUniqueId (masks : List MaskSlot) : List Nat → Option String
  | [] => none
  | d :: rest =>
    let slotId := toString (d % 999999)
    if findCollection masks slotId == -1 then some slotId else pickUniqueId masks rest

/-- Blender collection `.move(from_index, to_index)`: remove the element at
`fromIdx` and re-insert it at `toIdx`. -/
def collectionMove (l : List MaskSlot) (fromIdx toIdx : Nat) : List MaskSlot :=
  match l.get? fromIdx with
  | none => l
  | some x => (l.eraseIdx fromIdx).insertIdx toIdx x

/-- Embeds `add_mask_slot()`: append a fresh slot, give it a collision-free random
name, then — with no selection (`selected_index < 0`) — move it to position 0,
set `mask_stack.layer_index` to 0 and `selected_index` to `len(masks) - 1`;
otherwise move it to `max(0, min(selected_index + 1, len(masks) - 1))`, set
`mask_stack.layer_index` and `selected_index` to that position.  Returns the
resulting `selected_index`. -/
def add_mask_slot (draws : List Nat) (s : State) : Except PyErr (State × Int) :=
  let masks1 := s.masks ++ [{ name := "", hidden := false }]
  match pickUniqueId masks1 draws with
  | none => .error .noFreshDraw
  | some slotId =>
    let masks2 := masks1.set (masks1.length - 1) { name := slotId, hidden := false }
    if s.selected_index < 0 then
      let move_to_index : Nat := 0
      let masks3 := collectionMove masks2 (masks2.length - 1) move_to_index
      let sel : Int := (masks3.length : Int) - 1
      .ok ({ s with masks := masks3, stack_layer_index := 0, selected_index := sel }, sel)
    else
      let move_to_index : Int :=
        max 0 (min (s.selected_index + 1) ((masks2.length : Int) - 1))
      let masks3 := collectionMove masks2 (masks2.length - 1) move_to_index.toNat
      let sel : Int := max 0 (min (s.selected_index + 1) ((masks2.length : Int) - 1))
      let s' := { s with masks := masks3, stack_layer_index := move_to_index, selected_index := sel }
      .ok (s', sel)

/-! ### Reindexer: `reindex_masks` -/

/-- Rename/update the first node with the given name in a node list (Blender
`.name` assignment on the node object found by a prior `.get`). -/
def updateFirst (nodes : List GNode) (nm : String) (f : GNode → GNode) : List GNode :=
  match nodes with
  | [] => []
  | n :: rest => if n.name == nm then f n :: rest else n :: updateFirst rest nm f

/-- Apply `f` to the first material node named `nm` of the active material. -/
def updateNodeNamed (s : State) (nm : String) (f : GNode → GNode) : State :=
  match s.activeObject with
  | some (some am) =>
    { s with activeObject := some (some { am with nodes := updateFirst am.nodes nm f }) }
  | _ => s

/-- Rename the node group at index `ti` of the global node-group table
(assignment through a node's `node_tree` pointer). -/
def setGroupNameAt (gs : List NodeGroup) (ti : Nat) (nm : String) : List NodeGroup :=
  match gs.get? ti with
  | none => gs
  | some g => gs.set ti { g with name := nm }

/-- Embeds the pair `mask_node.name = newName; mask_node.node_tree.name = newName` — rename a
mask node and its backing node tree to the same string; `AttributeError` when
the node has no backing tree. -/
def renameMaskNodeAndTree (s : State) (mask_node : GNode) (newName : String) :
    Except PyErr State :=
  let s1 := updateNodeNamed s mask_node.name (fun n => { n with name := newName })
  match mask_node.tree with
  | none => .error .attributeError
  | some ti => .ok { s1 with nodeGroups := setGroupNameAt s1.nodeGroups ti newName }

/-- Python `for i in range(stop + k, stop, -1)` with a fallible, state-passing
body: iterations run in descending order of `i`, the first being
`i = stop + k`. -/
def loopDown (step : State → Int → Except PyErr State) (stop : Int) :
    Nat → State → Except PyErr State
  | 0, s => .ok s
  | k + 1, s =>
    match step s (stop + ((k : Int) + 1)) with
    | .error e => .error e
    | .ok s' => loopDown step stop k s'

/-- One iteration of the `ADDED_MASK` loop of `reindex_masks`: look up the
mask node at index `i - 1`; when found, rename it and its node tree to
`format_mask_name(material, layer_index, int(node.name) + 1)` — `int` applied
to the node's full name, which raises `ValueError` unless the name happens to
parse as a Python integer. -/
def addedShiftStep (layer_index : Int) (s : State) (i : Int) : Except PyErr State :=
  match get_mask_node s "MASK" layer_index (i - 1) false with
  | none => .ok s
  | some mask_node =>
    match s.activeObject with
    | some (some active_material) =>
      match pyInt mask_node.name with
      | none => .error .valueError
      | some v =>
        let mask_node_name := format_mask_name active_material.name layer_index (v + 1)
        renameMaskNodeAndTree s mask_node mask_node_name
    | _ => .error .attributeError

/-- One iteration of the `DELETED_MASK` loop of `reindex_masks`: look up the
mask node at index `i - 1` (`AttributeError` when missing — this branch has no
`if mask_node:` guard), set its name to `str(int(node.name) - 1)` (a bare
number string), then set its node tree's name to
`format_mask_name(material, layer_index, int(node.name) - 1)` where
`node.name` is re-read after the first assignment. -/
def deletedShiftStep (layer_index : Int) (s : State) (i : Int) : Except PyErr State :=
  match get_mask_node s "MASK" layer_index (i - 1) false with
  | none => .error .attributeError
  | some mask_node =>
    match pyInt mask_node.name with
    | none => .error .valueError
    | some v =>
      let newName := toString (v - 1)
      let s1 := updateNodeNamed s mask_node.name (fun n => { n with name := newName })
      match s1.activeObject with
      | some (some active_material) =>
        match pyInt newName with
        | none => .error .valueError
        | some w =>
          match mask_node.tree with
          | none => .error .attributeError
          | some ti =>
            .ok { s1 with nodeGroups := setGroupNameAt s1.nodeGroups ti (format_mask_name active_material.name layer_index (w - 1)) }
      | _ => .error .attributeError

/-- Embeds `reindex_masks(change_made, layer_index, affected_mask_index)`.
`ADDED_MASK`: `for i in range(len(masks), affected_mask_index, -1)` run
`addedShiftStep`, then commit the provisional `~`-suffixed node (when present)
to the final formatted name at `affected_mask_index`.
`DELETED_MASK`: `for i in range(len(masks), affected_mask_index + 1, -1)` run
`deletedShiftStep`.  Any other change string falls through the `match`. -/
def reindex_masks (s : State) (change_made : String) (layer_index affected_mask_index : Int) :
    Except PyErr State :=
  match change_made with
  | "ADDED_MASK" =>
    let total_layers := s.masks.length
    match loopDown (addedShiftStep layer_index) affected_mask_index
        ((total_layers : Int) - affected_mask_index).toNat s with
    | .error e => .error e
    | .ok s1 =>
      match get_mask_node s1 "MASK" layer_index affected_mask_index true with
      | none => .ok s1
      | some new_mask_node =>
        match s1.activeObject with
        | some (some active_material) =>
          let mask_node_name := format_mask_name active_material.name layer_index affected_mask_index
          renameMaskNodeAndTree s1 new_mask_node mask_node_name
        | _ => .error .attributeError
  | "DELETED_MASK" =>
    let mask_count := s.masks.length
    loopDown (deletedShiftStep layer_index) (affected_mask_index + 1)
      ((mask_count : Int) - (affected_mask_index + 1)).toNat s
  | _ => .ok s

/-! ### Spec-modelled collaborators -/

/-- Modelled from the spec: the module `material_layers` is not among the
sources.  Its `get_material_layer_node('LAYER', layer_index)` is described as
a GraphNodeAccessor lookup that returns the graph node playing the LAYER role
for the given layer index in the active material, or null when the active
object/material is absent or the node is not found.  The LAYER-role
assignment is the explicit `layerNodeNames` map carried in the state. -/
def get_material_layer_node (s : State) (layer_index : Int) : Option GNode :=
  match s.activeObject with
  | some (some am) =>
    match s.layerNodeNames.find? (fun p => p.1 == layer_index) with
    | some p => nodesGet am.nodes p.2
    | none => none
  | _ => none

/-- Links of the active material's node tree (empty without one). -/
def linksOf (s : State) : List Link :=
  match s.activeObject with
  | some (some am) => am.links
  | _ => []

/-- Replace the links of the active material's node tree. -/
def setLinks (s : State) (l : List Link) : State :=
  match s.activeObject with
  | some (some am) => { s with activeObject := some (some { am with links := l }) }
  | _ => s

/-- Embeds `node_tree.links.new(out_socket, in_socket)`: a single-input socket holds
one link, so any link already feeding the target socket is replaced. -/
def links_new (s : State) (lk : Link) : State :=
  setLinks s (lk :: (linksOf s).filter (fun x => !(x.toNode == lk.toNode && x.toIn == lk.toIn)))

/-! ### Relinker: `link_mask_nodes` -/

/-- One iteration of the disconnect loop: when the mask node at index `i`
exists, remove every link feeding one of its input sockets. -/
def teardownStep (layer_index : Int) (s : State) (i : Int) : State :=
  match get_mask_node s "MASK" layer_index i false with
  | none => s
  | some mask_node =>
    setLinks s ((linksOf s).filter
      (fun lk => !(lk.toNode == mask_node.name && lk.toIn < mask_node.inputs.length)))

/-- Ascending loop `for i in range(0, k)` with a pure, state-passing body:
`loopUp step k s` runs `step` at `i = 0, …, k - 1` in order. -/
def loopUp (step : State → Int → State) : Nat → State → State
  | 0, s => s
  | k + 1, s => step (loopUp step k s) (k : Int)

/-- Ascending loop `for i in range(0, k)` with a fallible body. -/
def loopUpE (step : State → Int → Except PyErr State) : Nat → State → Except PyErr State
  | 0, s => .ok s
  | k + 1, s =>
    match loopUpE step k s with
    | .error e => .error e
    | .ok s' => step s' (k : Int)

/-- One iteration of the reconnect loop: when the mask node at index `i + 1`
exists, run `links.new(mask_node.outputs[0], next_mask_node.inputs[last_input_index])`
with `last_input_index = len(next_mask_node.inputs)` — an index one past the
last input socket, so the subscript raises `IndexError` whenever it is
reached (after `mask_node.outputs[0]` raises on a missing node or a node
without outputs). -/
def reconnectStep (layer_index : Int) (s : State) (i : Int) : Except PyErr State :=
  let mask_node := get_mask_node s "MASK" layer_index i false
  let next_mask_node := get_mask_node s "MASK" layer_index (i + 1) false
  match next_mask_node with
  | none => .ok s
  | some nxt =>
    let last_input_index := nxt.inputs.length
    match mask_node with
    | none => .error .attributeError
    | some mn =>
      if mn.numOutputs = 0 then .error .indexError
      else if last_input_index < nxt.inputs.length then
        .ok (links_new s { fromNode := mn.name, fromOut := 0, toNode := nxt.name, toIn := last_input_index })
      else .error .indexError

/-- The final step of `link_mask_nodes`: connect the last mask node's output 0
into the `LayerMask` input of the owning layer's node. -/
def linkLastStep (layer_index : Int) (mask_count : Nat) (s : State) : Except PyErr State :=
  let layer_node := get_material_layer_node s layer_index
  let last_mask_node := get_mask_node s "MASK" layer_index ((mask_count : Int) - 1) false
  match last_mask_node with
  | none => .ok s
  | some last =>
    if last.numOutputs = 0 then .error .indexError
    else
      match layer_node with
      | none => .error .attributeError
      | some ln =>
        match ln.inputs.findIdx? (fun inm => inm == "LayerMask") with
        | none => .error .typeError
        | some idx => .ok (links_new s { fromNode := last.name, fromOut := 0, toNode := ln.name, toIn := idx })

/-- Embeds `link_mask_nodes(layer_index)`: return unchanged without an active object
or material; otherwise disconnect every input link of every mask node, then
run the reconnect loop, then connect the last mask node into the owning
layer node's `LayerMask` input. -/
def link_mask_nodes (layer_index : Int) (s : State) : Except PyErr State :=
  match s.activeObject with
  | none => .ok s
  | some none => .ok s
  | some (some _) =>
    let mask_count := s.masks.length
    let s1 := loopUp (teardownStep layer_index) mask_count s
    match loopUpE (reconnectStep layer_index) mask_count s1 with
    | .error e => .error e
    | .ok s2 => linkLastStep layer_index mask_count s2

/-- Links kept by the disconnect loop of `link_mask_nodes` over mask indices
`[0, count)`: a link survives unless it feeds an input socket of an existing
mask node of that range. -/
def keepB (s : State) (layer_index : Int) (count : Nat) (lk : Link) : Bool :=
  !((List.range count).any (fun i =>
    match get_mask_node s "MASK" layer_index (i : Int) false with
    | some n => lk.toNode == n.name && lk.toIn < n.inputs.length
    | none => false))

/-! ### Layout: `organize_mask_nodes` -/

/-- Ascending loop threading an extra `position_y` accumulator. -/
def loopUpY (step : State × Int → Int → State × Int) : Nat → State × Int → State × Int
  | 0, sy => sy
  | k + 1, sy => step (loopUpY step k sy) (k : Int)

/-- One iteration of the layout loop: when the mask node at index `i` exists,
place it at `(layer_node.location[0], position_y)`, set its width to 300 and
advance `position_y` by -600. -/
def organizeStep (layer_index : Int) (layer_node : GNode) (sy : State × Int) (i : Int) :
    State × Int :=
  match get_mask_node sy.1 "MASK" layer_index i false with
  | none => sy
  | some mask_node =>
    (updateNodeNamed sy.1 mask_node.name
        (fun n => { n with location := (layer_node.location.1, sy.2), width := 300 }),
      sy.2 - 600)

/-- Embeds `organize_mask_nodes()`: positions every mask node of the selected layer
under the layer's node (`AttributeError` when the layer node is missing,
since `layer_node.location` is read unconditionally). -/
def organize_mask_nodes (s : State) : Except PyErr State :=
  let selected_layer_index := s.selected_layer_index
  match get_material_layer_node s selected_layer_index with
  | none => .error .attributeError
  | some layer_node =>
    let position_y := layer_node.location.2 - 600
    .ok (loopUpY (organizeStep selected_layer_index layer_node) s.masks.length (s, position_y)).1

/-! ### `add_layer_mask` -/

/-- The phases the spec names for a user-facing stack mutation. -/
inductive Phase where
  | stackMutator
  | reindexer
  | relinker
  | layout
deriving Repr, DecidableEq

/-- Modelled from the spec: `blender_addon_utils.append_node_group` is not
among the sources; the spec describes it as a thin wrapper appending the named
node-group asset and returning a handle to it.  Modelled as appending a fresh
node group of that name — its child nodes a fixed template carrying the
`MASK_MIX` mix node — and returning its index. -/
def append_node_group (s : State) (nm : String) : State × Nat :=
  let g : NodeGroup := { name := nm, nodes := [{ name := "MASK_MIX", tree := none, inputs := ["Fac", "Color1", "Color2"], numOutputs := 1, label := "", location := (0, 0), width := 140 }] }
  ({ s with nodeGroups := s.nodeGroups ++ [g] }, s.nodeGroups.length)

/-- Append a node to the active material's node tree (`nodes.new`). -/
def addMaterialNode (s : State) (n : GNode) : State :=
  match s.activeObject with
  | some (some am) => { s with activeObject := some (some { am with nodes := am.nodes ++ [n] }) }
  | _ => s

/-- Embeds `add_layer_mask(type)` for the one implemented type `'EDGE_WEAR'`:
read the selected layer index, run `add_mask_slot`, create the mask's node
group and group node under the provisional `~`-suffixed name, then run
`reindex_masks('ADDED_MASK', …)`, then `organize_mask_nodes()`, then
`link_mask_nodes(selected_layer_index)`.  The returned list records, in
execution order, which of the spec's four phases ran to completion. -/
def add_layer_mask (draws : List Nat) (s : State) : Except PyErr (State × List Phase) :=
  let selected_layer_index := s.selected_layer_index
  match add_mask_slot draws s with
  | .error e => .error e
  | .ok (s1, new_mask_slot_index) =>
    let tr1 := [Phase.stackMutator]
    match s1.activeObject with
    | some (some active_material) =>
      let p := append_node_group s1 "ML_EdgeWear"
      let nm := format_mask_name active_material.name selected_layer_index new_mask_slot_index ++ "~"
      let s3 := { p.1 with nodeGroups := setGroupNameAt p.1.nodeGroups p.2 nm }
      let s4 := addMaterialNode s3 { name := nm, tree := some p.2, inputs := ["Fac", "Color1", "Color2"], numOutputs := 1, label := "Edge Wear", location := (0, 0), width := 140 }
      match reindex_masks s4 "ADDED_MASK" selected_layer_index new_mask_slot_index with
      | .error e => .error e
      | .ok s5 =>
        let tr2 := tr1 ++ [Phase.reindexer]
        match organize_mask_nodes s5 with
        | .error e => .error e
        | .ok s6 =>
          let tr3 := tr2 ++ [Phase.layout]
          match link_mask_nodes selected_layer_index s6 with
          | .error e => .error e
          | .ok s7 => .ok (s7, tr3 ++ [Phase.relinker])
    | _ => .error .attributeError

/-- The trace of completed phases of a traced run, `none` on an exception. -/
def traceOf (r : Except PyErr (State × List Phase)) : Option (List Phase) :=
  match r with
  | .ok p => some p.2
  | .error _ => none

/-- The phase order claimed by the spec: StackMutator, then Reindexer, then
Relinker, then Layout. -/
def claimedPhaseOrder : List Phase :=
  [Phase.stackMutator, Phase.reindexer, Phase.relinker, Phase.layout]

/-! ### Encoded indices and concrete sample states -/

/-- Digits-only string to value (`none` when empty or not all digits). -/
def looseNat (l : List Char) : Option Nat :=
  if l ≠ [] ∧ l.all Char.isDigit then
    some (l.foldl (fun n c => n * 10 + (c.toNat - 48)) 0)
  else none

/-- Exact inverse of `toString : Int → String`: `some k` iff the string is
precisely Python's `str(k)`. -/
def strictInt (str : String) : Option Int :=
  let cand : Option Int :=
    match str.data with
    | '-' :: rest => (looseNat rest).map (fun n => -(n : Int))
    | l => (looseNat l).map (fun n => (n : Int))
  match cand with
  | some k => if toString k == str then some k else none
  | none => none

/-- Strip the first list from the front of the second, `none` when it is not
a prefix. -/
def stripFront : List Char → List Char → Option (List Char)
  | [], rest => some rest
  | _ :: _, [] => none
  | p :: ps, c :: cs => if p == c then stripFront ps cs else none

/-- The mask index encoded in a node name, for the given material name and
layer index: `some k` iff the name is exactly
`format_mask_name material layer k`. -/
def maskIndexOfName (mat : String) (layer_index : Int) (nm : String) : Option Int :=
  match stripFront (mat ++ "_" ++ toString layer_index ++ "_").data nm.data with
  | some rest => strictInt (String.mk rest)
  | none => none

/-- All mask indices encoded in the names of the active material's nodes for
the given layer. -/
def encodedMaskIndices (s : State) (layer_index : Int) : List Int :=
  match s.activeObject with
  | some (some am) => am.nodes.filterMap (fun n => maskIndexOfName am.name layer_index n.name)
  | _ => []

/-- The contiguity invariant of the spec: the encoded mask indices of the
layer are exactly `{0, …, N-1}` for `N` the current mask count (no gaps, no
duplicates). -/
def contiguousIndicesB (s : State) (layer_index : Int) : Bool :=
  let idxs := encodedMaskIndices s layer_index
  let want := (List.range s.masks.length).map (fun n => (n : Int))
  idxs.length == want.length && idxs.all (fun x => want.contains x) &&
    want.all (fun x => idxs.contains x)

/-- Names of the active material's nodes. -/
def nodeNamesOf (s : State) : List String :=
  match s.activeObject with
  | some (some am) => am.nodes.map (fun n => n.name)
  | _ => []

/-- Names of the global node groups. -/
def groupNamesOf (s : State) : List String :=
  s.nodeGroups.map (fun g => g.name)

/-- A typical mask group node: three inputs, one output, backing tree `t`. -/
def sampleMaskNode (nm : String) (t : Option Nat) : GNode :=
  { name := nm, tree := t, inputs := ["Fac", "Color1", "Color2"], numOutputs := 1,
    label := "", location := (0, 0), width := 140 }

/-- A mask slot with the given identity key. -/
def sampleSlot (nm : String) : MaskSlot := { name := nm, hidden := false }

/-- Sample for C2/C8: one existing mask slot, nothing selected, no active
object. -/
def stateNoSelection : State :=
  { activeObject := none, masks := [sampleSlot "9"], selected_index := -1,
    stack_layer_index := 0, selected_layer_index := 0, nodeGroups := [], layerNodeNames := [] }

/-- Sample for C8: two mask slots but no active object, so every node lookup
returns null. -/
def stateNoContextTwoSlots : State :=
  { activeObject := none, masks := [sampleSlot "8", sampleSlot "9"], selected_index := 0,
    stack_layer_index := 0, selected_layer_index := 0, nodeGroups := [], layerNodeNames := [] }

/-- Sample for C3: material `"Material"`, one mask node at encoded index 0,
two mask slots (a second slot was just added at position 0). -/
def stateAddedShift : State :=
  { activeObject := some (some { name := "Material", nodes := [sampleMaskNode "Material_0_0" (some 0)], links := [] }),
    masks := [sampleSlot "1", sampleSlot "2"], selected_index := 0, stack_layer_index := 0,
    selected_layer_index := 0, nodeGroups := [{ name := "Material_0_0", nodes := [] }],
    layerNodeNames := [] }

/-- Sample for C1: material named `"7"` (so that `int(node.name)` succeeds),
mask nodes at encoded indices 0 and 1 plus the provisional node `"7_0_1~"`
just created by an insertion above selection 0; three mask slots. -/
def stateNumericMat : State :=
  { activeObject := some (some { name := "7", nodes := [sampleMaskNode "7_0_0" (some 0), sampleMaskNode "7_0_1" (some 1), sampleMaskNode "7_0_1~" (some 2)], links := [] }),
    masks := [sampleSlot "1", sampleSlot "2", sampleSlot "3"], selected_index := 1,
    stack_layer_index := 1, selected_layer_index := 0,
    nodeGroups := [{ name := "7_0_0", nodes := [] }, { name := "7_0_1", nodes := [] }, { name := "7_0_1~", nodes := [] }],
    layerNodeNames := [] }

/-- Sample for C4: material `"Material"`, a mask node at encoded index 1,
two mask slots remaining after a deletion at index 0. -/
def stateDeletedShift : State :=
  { activeObject := some (some { name := "Material", nodes := [sampleMaskNode "Material_0_1" (some 0)], links := [] }),
    masks := [sampleSlot "1", sampleSlot "2"], selected_index := 0, stack_layer_index := 0,
    selected_layer_index := 0, nodeGroups := [{ name := "Material_0_1", nodes := [] }],
    layerNodeNames := [] }

/-- Sample for C7: material named `"7"`, a mask node at encoded index 1 with
its backing group, two mask slots after a deletion at index 0. -/
def stateDeletedNumeric : State :=
  { activeObject := some (some { name := "7", nodes := [sampleMaskNode "7_0_1" (some 0)], links := [] }),
    masks := [sampleSlot "1", sampleSlot "2"], selected_index := 0, stack_layer_index := 0,
    selected_layer_index := 0, nodeGroups := [{ name := "7_0_1", nodes := [] }],
    layerNodeNames := [] }

/-- Sample for C5: both mask nodes of a two-mask layer exist under their
position-encoded names, and the owning layer node exists with a `LayerMask`
input. -/
def stateTwoMasks : State :=
  { activeObject := some (some { name := "Material", nodes := [sampleMaskNode "Material_0_0" (some 0), sampleMaskNode "Material_0_1" (some 1), { name := "LayerNode", tree := none, inputs := ["ColorInput", "LayerMask"], numOutputs := 1, label := "", location := (0, 0), width := 240 }], links := [] }),
    masks := [sampleSlot "1", sampleSlot "2"], selected_index := 1, stack_layer_index := 1,
    selected_layer_index := 0,
    nodeGroups := [{ name := "Material_0_0", nodes := [] }, { name := "Material_0_1", nodes := [] }],
    layerNodeNames := [(0, "LayerNode")] }

/-- Sample for C9: active material `"M"`, empty mask stack, nothing selected,
owning layer node present with a `LayerMask` input. -/
def stateEmptyStack : State :=
  { activeObject := some (some { name := "M", nodes := [{ name := "LayerNodeM", tree := none, inputs := ["ColorInput", "LayerMask"], numOutputs := 1, label := "", location := (100, 200), width := 240 }], links := [] }),
    masks := [], selected_index := -1, stack_layer_index := 0,
    selected_layer_index := 0, nodeGroups := [], layerNodeNames := [(0, "LayerNodeM")] }

/-- The state `add_layer_mask` (draw 4) produces from `stateEmptyStack`: one
mask slot, its node `"M_0_0"` placed below the layer node and linked into the
layer node's `LayerMask` input. -/
def stateEmptyStackAdded : State :=
  let layerNode : GNode := { name := "LayerNodeM", tree := none, inputs := ["ColorInput", "LayerMask"], numOutputs := 1, label := "", location := (100, 200), width := 240 }
  let maskNode : GNode := { name := "M_0_0", tree := some 0, inputs := ["Fac", "Color1", "Color2"], numOutputs := 1, label := "Edge Wear", location := (100, -400), width := 300 }
  let mixNode : GNode := { name := "MASK_MIX", tree := none, inputs := ["Fac", "Color1", "Color2"], numOutputs := 1, label := "", location := (0, 0), width := 140 }
  let mat : Material := { name := "M", nodes := [layerNode, maskNode], links := [{ fromNode := "M_0_0", fromOut := 0, toNode := "LayerNodeM", toIn := 1 }] }
  { activeObject := some (some mat), masks := [sampleSlot "4"], selected_index := 0, stack_layer_index := 0, selected_layer_index := 0, nodeGroups := [{ name := "M_0_0", nodes := [mixNode] }], layerNodeNames := [(0, "LayerNodeM")] }

end LayerMasks

namespace LayerMasks

/-- C10: `get_mask_node` treats the `PROJECTION` role exactly like the
`MASK_MIX` role — both resolve to the child node named `MASK_MIX` of the
mask's backing node group, for every state and every argument. -/
theorem projection_eq_mask_mix (s : State) (layer_index mask_index : Int) (get_changed : Bool) :
    get_mask_node s "PROJECTION" layer_index mask_index get_changed =
      get_mask_node s "MASK_MIX" layer_index mask_index get_changed := by
  unfold get_mask_node
  cases s.activeObject with
  | none => rfl
  | some o => cases o with
    | none => rfl
    | some am => rfl

/-! ### Supporting list lemmas for `add_mask_slot` -/

theorem set_concat {α : Type} (l : List α) (a b : α) :
    (l ++ [a]).set l.length b = l ++ [b] := by
  induction l with
  | nil => rfl
  | cons x xs ih =>
    show x :: (xs ++ [a]).set xs.length b = x :: (xs ++ [b])
    rw [ih]

theorem eraseIdx_concat {α : Type} (l : List α) (a : α) :
    (l ++ [a]).eraseIdx l.length = l := by
  induction l with
  | nil => rfl
  | cons x xs ih =>
    show x :: (xs ++ [a]).eraseIdx xs.length = x :: xs
    rw [ih]

theorem getq_concat {α : Type} (l : List α) (a : α) :
    (l ++ [a]).get? l.length = some a := by
  induction l with
  | nil => rfl
  | cons x xs ih =>
    show (xs ++ [a]).get? xs.length = some a
    exact ih

theorem collectionMove_concat (l : List MaskSlot) (b : MaskSlot) (m : Nat) :
    collectionMove (l ++ [b]) l.length m = l.insertIdx m b := by
  unfold collectionMove
  rw [getq_concat, eraseIdx_concat]

/-- C2 (counterexample): with one existing mask entry and no selection,
`add_mask_slot` does insert the new entry at position 0, but it sets the
selected index to `len(masks) - 1 = 1`, not 0 as the claim states. -/
theorem add_mask_slot_no_selection_selects_last :
    (add_mask_slot [3] stateNoSelection).map
        (fun p => (p.1.selected_index, p.2, p.1.masks.map (fun m => m.name))) =
      .ok (1, 1, ["3", "9"]) ∧ (1 : Int) ≠ 0 := by
  constructor
  · rfl
  · decide

/-- C2 (amended): `add_mask_slot` returns the new selected index; with no
entry selected it inserts the new entry at position 0 but selects index
`N - 1` (for `N` the stack length after the append, i.e. the old length), so
position 0 is selected only when the stack was previously empty; with an
entry at position `k ≥ 0` selected it inserts at `min(k+1, N-1)` and selects
that index. -/
theorem add_mask_slot_spec (draws : List Nat) (s s' : State) (r : Int)
    (h : add_mask_slot draws s = .ok (s', r)) :
    s'.selected_index = r ∧
      (s.selected_index < 0 →
        r = (s.masks.length : Int) ∧ ∃ sl : MaskSlot, s'.masks = sl :: s.masks) ∧
      (0 ≤ s.selected_index →
        r = min (s.selected_index + 1) (s.masks.length : Int) ∧
          ∃ sl : MaskSlot, s'.masks = s.masks.insertIdx r.toNat sl) := by
  simp only [add_mask_slot] at h
  cases hp : pickUniqueId (s.masks ++ [{ name := "", hidden := false }]) draws with
  | none => rw [hp] at h; cases h
  | some slotId =>
    rw [hp] at h
    dsimp only at h
    simp only [set_concat, collectionMove_concat, List.length_append, List.length_singleton,
      List.length_nil, Nat.zero_add, zero_add, List.insertIdx_zero, List.length_cons,
      Nat.add_sub_cancel, Nat.cast_add, Nat.cast_one, add_sub_cancel_right] at h
    by_cases hsel : s.selected_index < 0
    · rw [if_pos hsel] at h
      simp only [Except.ok.injEq, Prod.mk.injEq] at h
      obtain ⟨hs, hr⟩ := h
      subst hs
      refine ⟨hr, fun _ => ⟨hr.symm, ⟨_, rfl⟩⟩, fun hge => absurd hsel (not_lt.mpr hge)⟩
    · rw [if_neg hsel] at h
      push_neg at hsel
      have hmax : max 0 (min (s.selected_index + 1) ((s.masks.length : Int))) =
          min (s.selected_index + 1) ((s.masks.length : Int)) := by
        refine max_eq_right (le_min ?_ ?_)
        · omega
        · exact Int.natCast_nonneg _
      rw [hmax] at h
      simp only [Except.ok.injEq, Prod.mk.injEq] at h
      obtain ⟨hs, hr⟩ := h
      subst hs
      refine ⟨hr, fun hlt => absurd hlt (not_lt.mpr hsel),
        fun _ => ⟨hr.symm, ⟨{ name := slotId, hidden := false }, ?_⟩⟩⟩
      rw [← hr]

/-- C2 (witness): the amended rule evaluated on a concrete state — one
existing entry, nothing selected, draw 3: the run succeeds with result index
1, and the amended conclusions hold there. -/
theorem add_mask_slot_spec_witness :
    (∃ s' : State, add_mask_slot [3] stateNoSelection = .ok (s', 1) ∧
      (s'.selected_index = 1 ∧
        (stateNoSelection.selected_index < 0 →
          (1 : Int) = (stateNoSelection.masks.length : Int) ∧
            ∃ sl : MaskSlot, s'.masks = sl :: stateNoSelection.masks) ∧
        (0 ≤ stateNoSelection.selected_index →
          (1 : Int) = min (stateNoSelection.selected_index + 1) (stateNoSelection.masks.length : Int) ∧
            ∃ sl : MaskSlot, s'.masks = stateNoSelection.masks.insertIdx (1 : Int).toNat sl))) := by
  refine ⟨{ stateNoSelection with masks := [sampleSlot "3", sampleSlot "9"], stack_layer_index := 0, selected_index := 1 }, rfl, ?_⟩
  exact add_mask_slot_spec [3] stateNoSelection _ 1 rfl

/-- C1 (code bug): with material name `"7"`, mask nodes at encoded indices
`{0, 1}` and a new provisional node for an insertion at index 1, the reindex
step completes without an exception yet leaves the encoded indices
`{0, 1, 702}` for a mask count of 3 — `int(mask_node.name) + 1` parses the
whole formatted name (`int("7_0_1") = 701`) instead of its index component,
so the contiguity invariant `{0, …, N-1}` is violated (with a non-numeric
material name the same line raises `ValueError`). -/
theorem reindex_added_breaks_contiguity :
    (reindex_masks stateNumericMat "ADDED_MASK" 0 1).map (fun t => contiguousIndicesB t 0) =
        .ok false ∧
      (reindex_masks stateNumericMat "ADDED_MASK" 0 1).map (fun t => encodedMaskIndices t 0) =
        .ok [0, 702, 1] := by
  constructor
  · rfl
  · rfl

/-- C3 (code bug): on the ADDED path, the shift of an existing node applies
Python `int` to the node's full formatted name; for the node
`"Material_0_0"` (material `"Material"`, insertion at index 0) this raises
`ValueError` instead of renaming the node to `"Material_0_1"`. -/
theorem reindex_added_raises_value_error :
    reindex_masks stateAddedShift "ADDED_MASK" 0 0 = .error .valueError := by
  rfl

/-- C4 (code bug): on the DELETED path (deletion at index 0 with a node left
at encoded index 1), the first processed node is the highest index — the loop
runs descending, not ascending — and `int(mask_node.name)` on the formatted
name `"Material_0_1"` raises `ValueError` instead of shifting the node down
to `"Material_0_0"`. -/
theorem reindex_deleted_raises_value_error :
    reindex_masks stateDeletedShift "DELETED_MASK" 0 0 = .error .valueError := by
  rfl

/-- C5 (code bug): with both mask nodes of a two-mask layer present under
their encoded names, the reconnect loop evaluates
`next_mask_node.inputs[len(next_mask_node.inputs)]` — one past the last input
socket — and raises `IndexError`, so the chain link from mask node 0 into
mask node 1 is never created. -/
theorem link_mask_nodes_raises_index_error :
    link_mask_nodes 0 stateTwoMasks = .error .indexError := by
  rfl

/-! ### Structural lemmas for the Relinker -/

theorem setLinks_eq (s : State) (am : Material) (l : List Link)
    (hao : s.activeObject = some (some am)) :
    setLinks s l = { s with activeObject := some (some { am with links := l }) } := by
  unfold setLinks
  rw [hao]

theorem setLinks_masks (s : State) (l : List Link) : (setLinks s l).masks = s.masks := by
  obtain ⟨ao, msk, si, st, sel, ng, ln⟩ := s
  cases ao with
  | none => rfl
  | some o => cases o with
    | none => rfl
    | some am => rfl

theorem setLinks_setLinks (s : State) (l l' : List Link) :
    setLinks (setLinks s l) l' = setLinks s l' := by
  obtain ⟨ao, msk, si, st, sel, ng, ln⟩ := s
  cases ao with
  | none => rfl
  | some o => cases o with
    | none => rfl
    | some am => rfl

theorem setLinks_self (s : State) : setLinks s (linksOf s) = s := by
  obtain ⟨ao, msk, si, st, sel, ng, ln⟩ := s
  cases ao with
  | none => rfl
  | some o => cases o with
    | none => rfl
    | some am => rfl

theorem linksOf_setLinks (s : State) (am : Material) (l : List Link)
    (hao : s.activeObject = some (some am)) : linksOf (setLinks s l) = l := by
  rw [setLinks_eq s am l hao]
  rfl

theorem get_mask_node_setLinks (s : State) (l : List Link) (node_name : String)
    (layer_index mask_index : Int) (get_changed : Bool) :
    get_mask_node (setLinks s l) node_name layer_index mask_index get_changed =
      get_mask_node s node_name layer_index mask_index get_changed := by
  obtain ⟨ao, msk, si, st, sel, ng, ln⟩ := s
  cases ao with
  | none => rfl
  | some o => cases o with
    | none => rfl
    | some am => rfl

theorem get_material_layer_node_setLinks (s : State) (l : List Link) (layer_index : Int) :
    get_material_layer_node (setLinks s l) layer_index = get_material_layer_node s layer_index := by
  obtain ⟨ao, msk, si, st, sel, ng, ln⟩ := s
  cases ao with
  | none => rfl
  | some o => cases o with
    | none => rfl
    | some am => rfl

theorem keepB_setLinks (s : State) (l : List Link) (layer_index : Int) (k : Nat) (lk : Link) :
    keepB (setLinks s l) layer_index k lk = keepB s layer_index k lk := by
  unfold keepB
  simp only [get_mask_node_setLinks]

theorem filter_idem {α : Type} (p : α → Bool) (l : List α) :
    (l.filter p).filter p = l.filter p := by
  rw [List.filter_filter]
  exact List.filter_congr (fun a _ => Bool.and_self (p a))

theorem filter_swap_absorb {α : Type} (p q : α → Bool) (l : List α) :
    ((l.filter p).filter q).filter p = (l.filter p).filter q := by
  rw [List.filter_filter, List.filter_filter, List.filter_filter]
  refine List.filter_congr (fun a _ => ?_)
  cases hp : p a <;> cases hq : q a <;> simp [hp, hq]

/-- The disconnect loop only filters the links of the active material: after
`k` iterations the links are exactly those kept by `keepB` over `[0, k)`. -/
theorem teardown_char (layer_index : Int) (s : State) (am : Material)
    (hao : s.activeObject = some (some am)) :
    ∀ k : Nat, loopUp (teardownStep layer_index) k s =
      setLinks s ((linksOf s).filter (keepB s layer_index k)) := by
  intro k
  induction k with
  | zero =>
    have h0 : (linksOf s).filter (keepB s layer_index 0) = linksOf s := by
      refine List.filter_eq_self.mpr (fun a _ => ?_)
      unfold keepB
      simp
    show s = setLinks s ((linksOf s).filter (keepB s layer_index 0))
    rw [h0, setLinks_self]
  | succ n ih =>
    show teardownStep layer_index (loopUp (teardownStep layer_index) n s) (n : Int) = _
    rw [ih]
    unfold teardownStep
    rw [get_mask_node_setLinks]
    cases hget : get_mask_node s "MASK" layer_index (n : Int) false with
    | none =>
      show setLinks s ((linksOf s).filter (keepB s layer_index n)) = _
      congr 1
      refine List.filter_congr (fun a _ => ?_)
      unfold keepB
      rw [List.range_succ, List.any_append]
      simp [hget]
    | some mn =>
      show setLinks (setLinks s ((linksOf s).filter (keepB s layer_index n)))
          ((linksOf (setLinks s ((linksOf s).filter (keepB s layer_index n)))).filter _) = _
      rw [linksOf_setLinks s am _ hao, setLinks_setLinks, List.filter_filter]
      congr 1
      refine List.filter_congr (fun a _ => ?_)
      unfold keepB
      rw [List.range_succ, List.any_append]
      simp only [List.any_cons, List.any_nil, Bool.or_false, hget, Bool.not_or]
      exact Bool.and_comm _ _

/-- A successful reconnect loop leaves the state unchanged (the loop body can
only return `ok` when the next mask node is missing). -/
theorem reconnect_ok_eq (layer_index : Int) :
    ∀ (k : Nat) (s t : State),
      loopUpE (reconnectStep layer_index) k s = .ok t → t = s := by
  intro k
  induction k with
  | zero =>
    intro s t h
    cases h
    rfl
  | succ n ih =>
    intro s t h
    unfold loopUpE at h
    cases hprev : loopUpE (reconnectStep layer_index) n s with
    | error e => rw [hprev] at h; cases h
    | ok s' =>
      rw [hprev] at h
      dsimp only at h
      rw [ih s s' hprev] at h
      unfold reconnectStep at h
      dsimp only at h
      cases hnext : get_mask_node s "MASK" layer_index ((n : Int) + 1) false with
      | none =>
        rw [hnext] at h
        cases h
        rfl
      | some nxt =>
        rw [hnext] at h
        cases hmn : get_mask_node s "MASK" layer_index (n : Int) false with
        | none => rw [hmn] at h; cases h
        | some mn =>
          rw [hmn] at h
          dsimp only at h
          by_cases hz : mn.numOutputs = 0
          · rw [if_pos hz] at h; cases h
          · rw [if_neg hz, if_neg (lt_irrefl nxt.inputs.length)] at h
            cases h

/-- The reconnect loop succeeds (returning the state unchanged) whenever no
mask node exists at any index in `[1, k]`. -/
theorem reconnect_ok_of_none (layer_index : Int) :
    ∀ (k : Nat) (s : State),
      (∀ n : Nat, n < k → get_mask_node s "MASK" layer_index ((n : Int) + 1) false = none) →
      loopUpE (reconnectStep layer_index) k s = .ok s := by
  intro k
  induction k with
  | zero => intro s _; rfl
  | succ n ih =>
    intro s hc
    unfold loopUpE
    rw [ih s (fun m hm => hc m (Nat.lt_succ_of_lt hm))]
    dsimp only
    unfold reconnectStep
    dsimp only
    rw [hc n (Nat.lt_succ_self n)]

/-- Conversely, a successful reconnect loop implies no mask node exists at
any index in `[1, k]`. -/
theorem reconnect_ok_none_of_ok (layer_index : Int) :
    ∀ (k : Nat) (s : State),
      loopUpE (reconnectStep layer_index) k s = .ok s →
      ∀ n : Nat, n < k → get_mask_node s "MASK" layer_index ((n : Int) + 1) false = none := by
  intro k
  induction k with
  | zero => intro s _ n hn; exact absurd hn (Nat.not_lt_zero n)
  | succ m ih =>
    intro s h n hn
    unfold loopUpE at h
    cases hprev : loopUpE (reconnectStep layer_index) m s with
    | error e => rw [hprev] at h; cases h
    | ok s' =>
      rw [hprev] at h
      dsimp only at h
      have hs' := reconnect_ok_eq layer_index m s s' hprev
      rw [hs'] at h hprev
      rcases Nat.lt_succ_iff_lt_or_eq.mp hn with hlt | heq
      · exact ih s hprev n hlt
      · subst heq
        unfold reconnectStep at h
        dsimp only at h
        cases hnext : get_mask_node s "MASK" layer_index ((n : Int) + 1) false with
        | none => rfl
        | some nxt =>
          rw [hnext] at h
          cases hmn : get_mask_node s "MASK" layer_index (n : Int) false with
          | none => rw [hmn] at h; cases h
          | some mn =>
            rw [hmn] at h
            dsimp only at h
            by_cases hz : mn.numOutputs = 0
            · rw [if_pos hz] at h; cases h
            · rw [if_neg hz, if_neg (lt_irrefl nxt.inputs.length)] at h
              cases h

theorem setLinks_activeObject (s : State) (am : Material) (l : List Link)
    (hao : s.activeObject = some (some am)) :
    (setLinks s l).activeObject = some (some { am with links := l }) := by
  rw [setLinks_eq s am l hao]

/-- A state produced by a successful `link_mask_nodes` run is a fixed point
of `link_mask_nodes`. -/
theorem link_fixed_of_ok (layer_index : Int) (s t : State)
    (h : link_mask_nodes layer_index s = .ok t) :
    link_mask_nodes layer_index t = .ok t := by
  unfold link_mask_nodes at h
  cases hao : s.activeObject with
  | none =>
    rw [hao] at h
    cases h
    unfold link_mask_nodes
    rw [hao]
  | some o =>
    cases o with
    | none =>
      rw [hao] at h
      cases h
      unfold link_mask_nodes
      rw [hao]
    | some am =>
      rw [hao] at h
      dsimp only at h
      rw [teardown_char layer_index s am hao s.masks.length] at h
      cases hrc : loopUpE (reconnectStep layer_index) s.masks.length
          (setLinks s ((linksOf s).filter (keepB s layer_index s.masks.length))) with
      | error e => rw [hrc] at h; cases h
      | ok s2 =>
        rw [hrc] at h
        dsimp only at h
        rw [reconnect_ok_eq layer_index _ _ _ hrc] at h hrc
        have hnone_s : ∀ n : Nat, n < s.masks.length →
            get_mask_node s "MASK" layer_index ((n : Int) + 1) false = none := by
          intro n hn
          have hx := reconnect_ok_none_of_ok layer_index s.masks.length _ hrc n hn
          rw [get_mask_node_setLinks] at hx
          exact hx
        unfold linkLastStep at h
        dsimp only at h
        rw [get_mask_node_setLinks, get_material_layer_node_setLinks] at h
        cases hlast : get_mask_node s "MASK" layer_index ((s.masks.length : Int) - 1) false with
        | none =>
          rw [hlast] at h
          dsimp only at h
          injection h with ht
          subst ht
          unfold link_mask_nodes
          rw [setLinks_activeObject s am _ hao]
          dsimp only
          rw [setLinks_masks]
          have hTD : loopUp (teardownStep layer_index) s.masks.length
              (setLinks s ((linksOf s).filter (keepB s layer_index s.masks.length))) =
              setLinks s ((linksOf s).filter (keepB s layer_index s.masks.length)) := by
            rw [teardown_char layer_index _ { am with links := (linksOf s).filter (keepB s layer_index s.masks.length) } (setLinks_activeObject s am _ hao) s.masks.length]
            rw [linksOf_setLinks s am _ hao]
            rw [List.filter_congr (fun a _ => keepB_setLinks s _ layer_index s.masks.length a)]
            rw [filter_idem, setLinks_setLinks]
          rw [hTD, hrc]
          dsimp only
          unfold linkLastStep
          dsimp only
          rw [get_mask_node_setLinks, hlast]
        | some last =>
          rw [hlast] at h
          dsimp only at h
          by_cases hno : last.numOutputs = 0
          · rw [if_pos hno] at h; cases h
          · rw [if_neg hno] at h
            cases hlay : get_material_layer_node s layer_index with
            | none => rw [hlay] at h; cases h
            | some ln =>
              rw [hlay] at h
              dsimp only at h
              cases hidx : ln.inputs.findIdx? (fun inm => inm == "LayerMask") with
              | none => rw [hidx] at h; cases h
              | some idx =>
                rw [hidx] at h
                dsimp only at h
                injection h with ht
                rw [show links_new (setLinks s ((linksOf s).filter (keepB s layer_index s.masks.length))) { fromNode := last.name, fromOut := 0, toNode := ln.name, toIn := idx } = setLinks s ({ fromNode := last.name, fromOut := 0, toNode := ln.name, toIn := idx } :: ((linksOf s).filter (keepB s layer_index s.masks.length)).filter (fun x => !(x.toNode == ln.name && x.toIn == idx))) from by
                  unfold links_new
                  rw [linksOf_setLinks s am _ hao, setLinks_setLinks]] at ht
                subst ht
                unfold link_mask_nodes
                rw [setLinks_activeObject s am _ hao]
                dsimp only
                rw [setLinks_masks]
                rw [teardown_char layer_index _ { am with links := _ } (setLinks_activeObject s am _ hao) s.masks.length]
                rw [linksOf_setLinks s am _ hao]
                rw [List.filter_congr (fun a _ => keepB_setLinks s _ layer_index s.masks.length a)]
                rw [setLinks_setLinks]
                rw [List.filter_cons, filter_swap_absorb]
                by_cases hk : keepB s layer_index s.masks.length { fromNode := last.name, fromOut := 0, toNode := ln.name, toIn := idx }
                · rw [if_pos hk]
                  rw [reconnect_ok_of_none layer_index s.masks.length _
                    (fun n hn => by rw [get_mask_node_setLinks]; exact hnone_s n hn)]
                  dsimp only
                  unfold linkLastStep
                  dsimp only
                  rw [get_mask_node_setLinks, hlast]
                  dsimp only
                  rw [if_neg hno]
                  rw [get_material_layer_node_setLinks, hlay]
                  dsimp only
                  rw [hidx]
                  dsimp only
                  congr 1
                  unfold links_new
                  rw [linksOf_setLinks s am _ hao, setLinks_setLinks]
                  congr 1
                  congr 1
                  rw [List.filter_cons]
                  simp [filter_idem]
                · rw [if_neg hk]
                  rw [reconnect_ok_of_none layer_index s.masks.length _
                    (fun n hn => by rw [get_mask_node_setLinks]; exact hnone_s n hn)]
                  dsimp only
                  unfold linkLastStep
                  dsimp only
                  rw [get_mask_node_setLinks, hlast]
                  dsimp only
                  rw [if_neg hno]
                  rw [get_material_layer_node_setLinks, hlay]
                  dsimp only
                  rw [hidx]
                  dsimp only
                  congr 1
                  unfold links_new
                  rw [linksOf_setLinks s am _ hao, setLinks_setLinks]
                  congr 1
                  congr 1
                  exact filter_idem _ _

/-- A descending loop whose body fixes the state and reports success is the
identity. -/
theorem loopDown_ok_id (step : State → Int → Except PyErr State) (stop : Int) (s : State)
    (hstep : ∀ i : Int, step s i = .ok s) :
    ∀ k : Nat, loopDown step stop k s = .ok s := by
  intro k
  induction k with
  | zero => rfl
  | succ n ih =>
    unfold loopDown
    rw [hstep]
    exact ih

/-- C8 (amended): without an active object or an active material, node lookup
returns null, relink returns with no state change and no error, and an ADDED
reindex returns with no graph change and no error; slot addition, by
contrast, does not check the active context and mutates the mask stack
regardless (see the counterexample), and a DELETED reindex raises
`AttributeError` (the unguarded `mask_node.name` assignment on a failed
lookup) whenever the mask stack extends past the affected index. -/
theorem no_context_lookup_and_mutators (s : State) (node_name : String)
    (layer_index mask_index affected : Int) (get_changed : Bool)
    (h : s.activeObject = none ∨ s.activeObject = some none) :
    get_mask_node s node_name layer_index mask_index get_changed = none ∧
      link_mask_nodes layer_index s = .ok s ∧
      reindex_masks s "ADDED_MASK" layer_index affected = .ok s ∧
      (affected + 1 < (s.masks.length : Int) →
        reindex_masks s "DELETED_MASK" layer_index affected = .error .attributeError) := by
  have hget : ∀ (nn : String) (li mi : Int) (gc : Bool), get_mask_node s nn li mi gc = none := by
    intro nn li mi gc
    unfold get_mask_node
    rcases h with h | h <;> rw [h]
  refine ⟨hget _ _ _ _, ?_, ?_, ?_⟩
  · unfold link_mask_nodes
    rcases h with h | h <;> rw [h]
  · unfold reindex_masks
    dsimp only
    have hstep : ∀ i : Int, addedShiftStep layer_index s i = .ok s := by
      intro i
      unfold addedShiftStep
      rw [hget]
    rw [loopDown_ok_id (addedShiftStep layer_index) affected s hstep
      ((s.masks.length : Int) - affected).toNat]
    dsimp only
    rw [hget]
    exact rfl
  · intro haff
    unfold reindex_masks
    dsimp only
    obtain ⟨k, hk⟩ : ∃ k : Nat, ((s.masks.length : Int) - (affected + 1)).toNat = k + 1 := by
      refine ⟨((s.masks.length : Int) - (affected + 1)).toNat - 1, ?_⟩
      omega
    rw [hk]
    unfold loopDown
    unfold deletedShiftStep
    rw [hget]
    exact rfl

/-- C8 (witness): the amended rule at a concrete no-active-object state with
two mask slots, where the DELETED branch of the amendment is exercised. -/
theorem no_context_lookup_and_mutators_witness :
    ((stateNoContextTwoSlots.activeObject = none ∨
        stateNoContextTwoSlots.activeObject = some none) ∧
      (0 : Int) + 1 < (stateNoContextTwoSlots.masks.length : Int)) ∧
      (get_mask_node stateNoContextTwoSlots "MASK" 0 0 false = none ∧
        link_mask_nodes 0 stateNoContextTwoSlots = .ok stateNoContextTwoSlots ∧
        reindex_masks stateNoContextTwoSlots "ADDED_MASK" 0 0 = .ok stateNoContextTwoSlots ∧
        reindex_masks stateNoContextTwoSlots "DELETED_MASK" 0 0 = .error .attributeError) :=
  ⟨⟨Or.inl rfl, by decide⟩,
    have h := no_context_lookup_and_mutators stateNoContextTwoSlots "MASK" 0 0 0 false (Or.inl rfl)
    ⟨h.1, h.2.1, h.2.2.1, h.2.2.2 (by decide)⟩⟩

/-- C8 (counterexample): two entry points violate the claim when there is no
active object: slot addition still mutates the scene — it appends a mask slot
(stack length goes from 1 to 2) instead of detecting the missing context
first — and a DELETED reindex over a two-slot stack raises `AttributeError`
(its loop assigns `mask_node.name` with no guard while every lookup returns
`None`) instead of returning without an error. -/
theorem add_mask_slot_mutates_without_context :
    (stateNoSelection.activeObject = none ∧
      (add_mask_slot [3] stateNoSelection).map (fun p => p.1.masks.length) = .ok 2 ∧
      stateNoSelection.masks.length = 1) ∧
      (stateNoContextTwoSlots.activeObject = none ∧
        reindex_masks stateNoContextTwoSlots "DELETED_MASK" 0 0 = .error .attributeError) :=
  ⟨⟨rfl, rfl, rfl⟩, ⟨rfl, rfl⟩⟩

/-- C9 (counterexample): a concrete successful add-mask run on an empty stack
executes its phases in the order StackMutator, Reindexer, Layout, Relinker —
the node repositioning runs before the connection rebuild, not after it as
the claim states. -/
theorem add_layer_mask_runs_layout_before_relink :
    traceOf (add_layer_mask [4] stateEmptyStack) =
        some [Phase.stackMutator, Phase.reindexer, Phase.layout, Phase.relinker] ∧
      [Phase.stackMutator, Phase.reindexer, Phase.layout, Phase.relinker] ≠ claimedPhaseOrder := by
  exact ⟨rfl, by decide⟩

/-- C9 (amended): every add-mask command that completes executes exactly the
four phases StackMutator, then Reindexer, then Layout, then Relinker, in that
order, each starting only after its predecessor completed. -/
theorem add_layer_mask_phase_order (draws : List Nat) (s : State) (out : State × List Phase)
    (h : add_layer_mask draws s = .ok out) :
    out.2 = [Phase.stackMutator, Phase.reindexer, Phase.layout, Phase.relinker] := by
  unfold add_layer_mask at h
  repeat' first
  | split at h
  | dsimp only at h
  all_goals cases h
  all_goals rfl

/-- C9 (witness): the amended phase order at the concrete empty-stack run. -/
theorem add_layer_mask_phase_order_witness :
    add_layer_mask [4] stateEmptyStack =
        .ok (stateEmptyStackAdded, [Phase.stackMutator, Phase.reindexer, Phase.layout, Phase.relinker]) ∧
      (stateEmptyStackAdded, [Phase.stackMutator, Phase.reindexer, Phase.layout, Phase.relinker]).2 =
        [Phase.stackMutator, Phase.reindexer, Phase.layout, Phase.relinker] :=
  ⟨rfl, add_layer_mask_phase_order [4] stateEmptyStack _ rfl⟩

/-- C6: relink is idempotent — for every graph state (hence every reachable
one) and every layer index, running `link_mask_nodes` twice in sequence gives
exactly the run-once result: when the first call succeeds, the second call
returns its state unchanged (same connection set among the mask nodes and
into the owning layer node), and when the first call raises, the composition
raises identically. -/
theorem link_mask_nodes_idempotent (layer_index : Int) (s : State) :
    (link_mask_nodes layer_index s).bind (link_mask_nodes layer_index) =
      link_mask_nodes layer_index s := by
  cases hrun : link_mask_nodes layer_index s with
  | error e => rfl
  | ok t =>
    show link_mask_nodes layer_index t = .ok t
    exact link_fixed_of_ok layer_index s t hrun

/-- C7 (code bug): a DELETED reindex over the node `"7_0_1"` (material `"7"`,
deletion at index 0) completes and leaves the node renamed to the bare number
string `"700"` while its backing node tree is renamed to the formatted name
`"7_0_699"` — the two names diverge (and the tree's index is even off by one
more than the node's). -/
theorem reindex_deleted_node_and_tree_names_diverge :
    (reindex_masks stateDeletedNumeric "DELETED_MASK" 0 0).map
        (fun t => (nodeNamesOf t, groupNamesOf t)) = .ok (["700"], ["7_0_699"]) ∧
      ("700" : String) ≠ "7_0_699" := by
  constructor
  · rfl
  · decide

end LayerMasks
